import Mathlib

/-!
Verification of the CalmPulse audio-to-emotion pipeline
(`backend/app/main.py`).  The pure decision logic of the pipeline —
tokenization, repetition counting, word frequency, the signal-diagnostic
placeholder selection, the emotion fusion decision tree, and the
volume normalization — is embedded as executable Lean definitions, and
the external dependencies (the VADER sentiment scorer, the librosa
decoder, the remote speech recognizer) are modelled as explicit input
parameters describing their observable outcomes.
-/

namespace CalmPulse

/-! ## Tokenization

`analyze_emotion` tokenizes with
`transcript.lower().replace(".", "").replace(",", "").split()`,
while `analyze_audio_simple` and `analyze_audio` tokenize with
`re.findall(r"\w+", transcript.lower())`.  Both are modelled over the
character list of the string. -/

/-- Maximal runs of characters satisfying `p`, accumulating the current
run in `acc` (in reverse).  This models both Python `str.split()`
(with `p` = not-whitespace) and `re.findall` of a one-character-class
`+` pattern (with `p` = the class test). -/
def runsBy (p : Char → Bool) : List Char → List Char → List String
  | [], acc => if acc.isEmpty then [] else [String.mk acc.reverse]
  | c :: cs, acc =>
    if p c then runsBy p cs (c :: acc)
    else if acc.isEmpty then runsBy p cs []
    else String.mk acc.reverse :: runsBy p cs []

/-- Python regex `\w` restricted to ASCII: letters, digits, underscore. -/
def isWordChar (c : Char) : Bool := c.isAlphanum || c == '_'

/-- Tokenizer of `analyze_emotion` (main.py line 150):
lower-case, drop every `.`, drop every `,`, split on whitespace. -/
def tokensEmotion (t : String) : List String :=
  runsBy (fun c => !c.isWhitespace)
    (((t.data.map Char.toLower).filter (fun c => c ≠ '.')).filter (fun c => c ≠ ','))
    []

/-- Tokenizer of `analyze_audio_simple` / `analyze_audio`
(main.py lines 614 and 724): `re.findall` of word-character runs over
the lower-cased transcript. -/
def tokensSimple (t : String) : List String :=
  runsBy isWordChar (t.data.map Char.toLower) []

/-! ## Repetition count -/

/-- Source expression `sum([1 for i in range(1, len(words)) if words[i] == words[i-1]])`
(main.py lines 151, 616, 728): the indices `1, …, len-1` are
`List.range' 1 (len - 1)`. -/
def repetitionCount (ws : List String) : Nat :=
  (List.range' 1 (ws.length - 1)).countP
    (fun i => ws.getD i "" == ws.getD (i - 1) "")

/-- The claim-side adjacency measure: the number of adjacent index
pairs `(i-1, i)` whose tokens agree, expressed as a count over the
zipped list of neighbours. -/
def adjacentRepetitions (ws : List String) : Nat :=
  (ws.zip ws.tail).countP (fun p => p.1 == p.2)

example : tokensSimple "Hello, world" = ["hello", "world"] := by decide
example : repetitionCount ["a", "a", "b"] = 1 := by decide
example : adjacentRepetitions ["a", "a", "a"] = 2 := by decide

/-! ## Word frequency (`Counter` and `most_common`)

`Counter(words)` maps each distinct word to its number of occurrences,
iterating distinct words in first-encounter order;
`Counter.most_common(10)` sorts by count descending, ties kept in
first-encounter order (CPython guarantee), and keeps the first 10. -/

/-- Distinct elements in first-encounter order, skipping those in `seen`. -/
def distinctsAux (seen : List String) : List String → List String
  | [] => []
  | w :: ws =>
    if w ∈ seen then distinctsAux seen ws
    else w :: distinctsAux (w :: seen) ws

/-- Distinct words of a token list, in first-encounter order (the
iteration order of a Python `Counter`). -/
def distincts (ws : List String) : List String := distinctsAux [] ws

/-- The full `Counter(words)` as an association list. -/
def wordCounts (ws : List String) : List (String × Nat) :=
  (distincts ws).map (fun w => (w, ws.count w))

/-- Insert one entry into a count-descending list, after all entries of
count ≥ its own (stable for ties). -/
def insertByCount (x : String × Nat) : List (String × Nat) → List (String × Nat)
  | [] => [x]
  | y :: ys => if x.2 ≥ y.2 then x :: y :: ys else y :: insertByCount x ys

/-- Stable insertion sort by count, descending — the order produced by
`Counter.most_common` (ties in first-encounter order). -/
def sortByCountDesc : List (String × Nat) → List (String × Nat)
  | [] => []
  | x :: xs => insertByCount x (sortByCountDesc xs)

/-- Model of `dict(word_freq.most_common(n))` (main.py lines 643, 757). -/
def mostCommon (n : Nat) (ws : List String) : List (String × Nat) :=
  (sortByCountDesc (wordCounts ws)).take n

example : mostCommon 2 ["b", "a", "b"] = [("b", 2), ("a", 1)] := by decide

/-! ## Series statistics (heart-rate and volume collaborators)

`analyze_emotion` consumes `heart_rate_df["bpm"].max()` and
`volume_df["volume"].mean()` (main.py lines 154, 159). -/

/-- Model of `max()` of a pandas series, for non-empty integer series. -/
def seriesMax (l : List ℤ) : ℤ := l.foldl max (l.headD 0)

/-- Model of `mean()` of a pandas series, over the rationals. -/
def seriesMean (l : List ℚ) : ℚ := l.sum / l.length

/-! ## Emotion fusion engine (`analyze_emotion`, main.py lines 143–197)

The VADER compound score of the transcript is an external dependency
and enters the model as the parameter `compound`. -/

structure EmotionFactors where
  high_bpm : Bool
  high_volume : Bool
  repetition_alert : Bool
  negative_sentiment : Bool
deriving DecidableEq, Repr

structure EmotionAnalysis where
  emotion : String
  emoji : String
  confidence : ℚ
  factors : EmotionFactors
  repetition_count : Nat
  max_bpm : ℤ
  avg_volume : ℚ
deriving DecidableEq, Repr

/-- The four threshold factors (main.py lines 156, 160, 163–168). -/
def emotionFactors (transcript : String) (compound : ℚ)
    (bpms : List ℤ) (volumes : List ℚ) : EmotionFactors :=
  { high_bpm := decide (seriesMax bpms > 100)
    high_volume := decide (seriesMean volumes > 1/2)
    repetition_alert := decide (repetitionCount (tokensEmotion transcript) ≥ 2)
    negative_sentiment := decide (compound < -(3/10)) }

/-- Model of `analyze_emotion` (main.py lines 143–197): the factor dictionary is
computed, then the decision tree at lines 171–186 assigns label, emoji
and confidence. -/
def analyze_emotion (transcript : String) (compound : ℚ)
    (bpms : List ℤ) (volumes : List ℚ) : EmotionAnalysis :=
  let f := emotionFactors transcript compound bpms volumes
  let rc := repetitionCount (tokensEmotion transcript)
  let mb := seriesMax bpms
  let av := seriesMean volumes
  if f.high_bpm && f.high_volume && f.repetition_alert && f.negative_sentiment then
    ⟨"Anxious", "😰", 9/10, f, rc, mb, av⟩
  else if f.negative_sentiment then
    ⟨"Sad", "😢", 7/10, f, rc, mb, av⟩
  else if compound > 3/10 then
    ⟨"Happy", "😊", 4/5, f, rc, mb, av⟩
  else
    ⟨"Neutral", "😐", 3/5, f, rc, mb, av⟩

/-- The spec-side decision tree, written from the words of §4.5 of the
specification: a fixed priority order over the four factor booleans and
the raw compound score, first matching branch wins. -/
def fusionSpec (high_bpm high_volume repetition_alert negative_sentiment : Bool)
    (compound : ℚ) : String × ℚ :=
  if high_bpm && high_volume && repetition_alert && negative_sentiment then
    ("Anxious", 9/10)
  else if negative_sentiment then ("Sad", 7/10)
  else if compound > 3/10 then ("Happy", 4/5)
  else ("Neutral", 3/5)

/-! ## Scenario strings

String literals are assembled around an explicit apostrophe character. -/

def apos : Char := Char.ofNat 39

/-- The contraction of "do not", as it appears in the scenario transcript. -/
def dont : String := "don" ++ String.singleton apos ++ "t"

/-- The §8 scenario transcript of the specification. -/
def scenarioTranscript : String :=
  "I " ++ dont ++ " want to go. I " ++ dont ++ " want to. Please. Please."

example : tokensEmotion scenarioTranscript =
    ["i", dont, "want", "to", "go", "i", dont, "want", "to", "please", "please"] := by
  decide
example : repetitionCount (tokensEmotion scenarioTranscript) = 1 := by decide
example : tokensSimple (dont ++ " " ++ dont) = ["don", "t", "don", "t"] := by decide
example :
    (analyze_emotion scenarioTranscript (-(1/2)) [105] [3/5]).emotion = "Sad" := by
  have h : repetitionCount (tokensEmotion scenarioTranscript) = 1 := by decide
  simp only [analyze_emotion, emotionFactors, seriesMax, seriesMean, h]
  norm_num

/-! ## Transcription engine of `analyze_audio_simple`
(main.py lines 509–610)

The recognizer is an external dependency; the outcome of each of the
four ordered recognition attempts is an input to the model. -/

/-- Observable outcome of one recognition attempt: the text produced
(possibly blank), or one of the failure kinds the code distinguishes. -/
inductive AttemptOutcome where
  | success (text : String)
  | noSpeech
  | serviceErr (msg : String)
  | otherErr (msg : String)
deriving DecidableEq, Repr

/-- Python `not s.strip()`: the string consists of whitespace only. -/
def isBlank (s : String) : Bool := s.data.all Char.isWhitespace

/-- The attempt loop at lines 547–577: a success assigns the transcript,
and the loop stops (`if transcript.strip(): break`) as soon as the
assigned transcript is non-blank; every failure kind is swallowed and
the next attempt proceeds. -/
def loopTranscript : List AttemptOutcome → String → String
  | [], t => t
  | a :: rest, t =>
    match a with
    | .success txt => if isBlank txt then loopTranscript rest txt else txt
    | _ => loopTranscript rest t

/-- Signal statistics of the converted buffer, computed at lines
584–587 when all attempts exhaust.  (`duration` in seconds,
`maxAmplitude` the peak of the absolute samples, `rmsEnergy` the root
mean square.) -/
structure AudioStats where
  duration : ℚ
  maxAmplitude : ℚ
  rmsEnergy : ℚ
deriving DecidableEq, Repr

/-- Outcome of re-loading the converted file for diagnostics
(lines 582–603): the statistics, a missing converted file, or an
exception during the analysis. -/
inductive StatsOutcome where
  | ok (stats : AudioStats)
  | fileMissing
  | analysisErr
deriving DecidableEq, Repr

def tooShortMsg : String := "Audio too short - please record for at least 2-3 seconds"
def tooQuietMsg : String := "Audio too quiet - please speak louder or check microphone"
def lowSignalMsg : String := "Very low audio signal - please check microphone settings"
def notDetectedMsg : String :=
  "Speech not detected - please speak clearly and ensure good audio quality"

/-- The placeholder selection at lines 591–598: thresholds tested in
order on duration, then peak amplitude, then RMS energy. -/
def diagnosticTranscript (s : AudioStats) : String :=
  if s.duration < 1 then tooShortMsg
  else if s.maxAmplitude < 1/100 then tooQuietMsg
  else if s.rmsEnergy < 1/1000 then lowSignalMsg
  else notDetectedMsg

/-- The fallback at lines 580–603 when the transcript is still blank. -/
def diagnosticFallback : StatsOutcome → String
  | .ok s => diagnosticTranscript s
  | .fileMissing => "Could not analyze audio file"
  | .analysisErr =>
      "Could not understand audio - please try speaking more clearly, louder, or for a longer duration"

/-- The whole transcription stage of `analyze_audio_simple`: run the
attempt loop starting from the empty transcript, then substitute the
diagnostic placeholder when the result is blank. -/
def transcribeStage (attempts : List AttemptOutcome) (diag : StatsOutcome) : String :=
  let t := loopTranscript attempts ""
  if isBlank t then diagnosticFallback diag else t

/-! ## Acoustic volume feature (main.py lines 624–627 and 743–746)

`average_volume = min(float(np.mean(np.abs(y))) * 10, 1.0)`. -/

/-- Mean absolute sample value, scaled by the fixed gain 10 and capped
at 1. -/
def avgVolumeOf (y : List ℚ) : ℚ :=
  min ((y.map (fun q => |q|)).sum / y.length * 10) 1

/-- The lexical/acoustic record assembled by `analyze_audio_simple`
(lines 612–644).  `pitchVal` stands for the librosa spectral-centroid
value, an external computation. -/
structure SimpleAnalysis where
  transcript : String
  repetition_count : Nat
  average_pitch : ℚ
  average_volume : ℚ
  word_frequency : List (String × Nat)
deriving DecidableEq, Repr

/-- Model of `analyze_audio_simple` after conversion succeeded: transcription
stage, then lexical analysis of the transcript, then audio features
with defaults 150 and 1/2 when feature extraction fails
(`featureSamples = none` models a failed re-load, `some []` the
no-data case that raises and hits the same defaults). -/
def analyze_audio_simple (attempts : List AttemptOutcome) (diag : StatsOutcome)
    (featureSamples : Option (List ℚ)) (pitchVal : ℚ) : SimpleAnalysis :=
  let transcript := transcribeStage attempts diag
  let words := tokensSimple transcript
  let feats : ℚ × ℚ :=
    match featureSamples with
    | some ys => if ys.length > 0 then (pitchVal, avgVolumeOf ys) else (150, 1/2)
    | none => (150, 1/2)
  { transcript := transcript
    repetition_count := repetitionCount words
    average_pitch := feats.1
    average_volume := feats.2
    word_frequency := mostCommon 10 words }

/-! ## `analyze_audio` (main.py lines 664–776)

At line 692 the statement `y, sr = librosa.load(temp_path)` rebinds the
name `sr` — until then the imported `speech_recognition` module — to
the integer sample rate, so the later `sr.Recognizer()` at line 699 is
an attribute access on an integer.  The binding of `sr` is modelled
explicitly as a Python value. -/

/-- The value bound to the name `sr` at the point of use. -/
inductive PyVal where
  | module
  | num (q : ℚ)
deriving DecidableEq, Repr

/-- Model of `sr.Recognizer()`: succeeds only when `sr` is still the imported
module; on a number it raises an AttributeError. -/
def recognizerFromSr : PyVal → Except String Unit
  | .module => .ok ()
  | .num _ => .error "AttributeError: int object has no attribute Recognizer"

/-- Result of `librosa.load` on the uploaded bytes. -/
inductive LoadResult where
  | ok (samples : List ℚ) (rate : ℚ)
  | err
deriving DecidableEq, Repr

/-- Outcome of the single `recognize_google` call at line 708, with the
failure kinds the handlers at lines 710–718 distinguish. -/
inductive RecognizeOutcome where
  | text (s : String)
  | unknownValue
  | requestErr (msg : String)
  | otherErr (msg : String)
deriving DecidableEq, Repr

/-- The transcript after the inner handlers at lines 702–718. -/
def transcriptOf : RecognizeOutcome → String
  | .text s => s
  | .unknownValue => "Could not understand audio - please speak more clearly"
  | .requestErr _ => "Speech recognition service temporarily unavailable"
  | .otherErr _ => "Error processing audio for speech recognition"

structure UploadFile where
  filename : String
  contentType : Option String
  content : List Nat
deriving DecidableEq, Repr

/-- Test that `s` ends with `pat` (Python `str.endswith` on character lists). -/
def endsWithChars (s pat : List Char) : Bool :=
  (s.reverse.take pat.length) == pat.reverse

/-- Test that `s` starts with `pat` (Python `str.startswith`). -/
def startsWithChars (s pat : List Char) : Bool := (s.take pat.length) == pat

/-- The format validation at lines 670–672. -/
def validFormat (f : UploadFile) : Bool :=
  (endsWithChars (f.filename.data.map Char.toLower) ".wav".data ||
   endsWithChars (f.filename.data.map Char.toLower) ".mp3".data ||
   endsWithChars (f.filename.data.map Char.toLower) ".m4a".data ||
   endsWithChars (f.filename.data.map Char.toLower) ".flac".data) ||
  (match f.contentType with
   | some ct => startsWithChars ct.data "audio/".data
   | none => false)

/-- The response record `AudioAnalysisResult` of the endpoint. -/
structure AudioAnalysisResult where
  transcript : String
  sentiment_compound : ℚ
  repetition_count : Nat
  average_pitch : ℚ
  average_volume : ℚ
  word_frequency : List (String × Nat)
deriving DecidableEq, Repr

def attrErrorMsg : String :=
  "Audio analysis failed: AttributeError: int object has no attribute Recognizer"

/-- Model of `analyze_audio`: validation, empty-body check, librosa load, then
`r = sr.Recognizer()` on the rebound `sr`, then (when the recognizer
construction succeeds) the rest of the pipeline.  `compound` and
`pitchVal` stand for the external VADER and librosa computations.
Errors are `(status code, detail)` pairs as raised by the handler. -/
def analyze_audio (f : UploadFile) (load : LoadResult) (recog : RecognizeOutcome)
    (compound : ℚ) (pitchVal : ℚ) : Except (Nat × String) AudioAnalysisResult :=
  if !validFormat f then
    .error (400, "Unsupported audio format. Please use WAV, MP3, M4A, or FLAC files.")
  else if f.content.length = 0 then
    .error (400, "Empty audio file")
  else
    match load with
    | .err =>
      .error (500, "Audio analysis failed: Could not load audio file. Please ensure it" ++
        String.singleton apos ++ "s a valid audio format.")
    | .ok y _rate =>
      -- y, sr = librosa.load(temp_path): sr is rebound to the sample rate
      let srName : PyVal := .num _rate
      match recognizerFromSr srName with
      | .error msg => .error (500, "Audio analysis failed: " ++ msg)
      | .ok () =>
        let transcript := transcriptOf recog
        let words := tokensSimple transcript
        .ok { transcript := transcript
              sentiment_compound := compound
              repetition_count := repetitionCount words
              average_pitch := pitchVal
              average_volume := avgVolumeOf y
              word_frequency := mostCommon 10 words }

example :
    analyze_audio ⟨"clip.wav", some "audio/wav", [1, 2, 3]⟩
      (.ok [1/10] 22050) (.text "hello") 0 150 =
    .error (500, attrErrorMsg) := by
  rfl

/-! ## Lemmas: repetition counting -/

lemma countP_range'_shift (p : Nat → Bool) :
    ∀ (n s : Nat), (List.range' (s + 1) n).countP p
      = (List.range' s n).countP (fun i => p (i + 1)) := by
  intro n
  induction n with
  | zero => intro s; rfl
  | succ n ih =>
    intro s
    rw [List.range'_succ s n 1, List.range'_succ (s + 1) n 1]
    rw [List.countP_cons, List.countP_cons, ih (s + 1)]

lemma repetitionCount_cons (a : String) (t : List String) :
    repetitionCount (a :: t)
      = (List.range' 0 t.length).countP
          (fun i => t.getD i "" == (a :: t).getD i "") := by
  unfold repetitionCount
  have hlen : (a :: t).length - 1 = t.length := by simp
  rw [hlen, countP_range'_shift]
  simp only [List.getD_cons_succ, Nat.add_sub_cancel]

lemma repetitionCount_nil : repetitionCount [] = 0 := rfl

lemma repetitionCount_singleton (a : String) : repetitionCount [a] = 0 := rfl

lemma repetitionCount_cons₂ (a b : String) (u : List String) :
    repetitionCount (a :: b :: u)
      = (if b == a then 1 else 0) + repetitionCount (b :: u) := by
  rw [repetitionCount_cons a (b :: u), repetitionCount_cons b u]
  have : (b :: u).length = u.length + 1 := rfl
  rw [this, List.range'_succ 0 u.length 1, List.countP_cons]
  rw [countP_range'_shift]
  simp only [List.getD_cons_succ, List.getD_cons_zero]
  omega

lemma adjacentRepetitions_cons₂ (a b : String) (u : List String) :
    adjacentRepetitions (a :: b :: u)
      = (if a == b then 1 else 0) + adjacentRepetitions (b :: u) := by
  unfold adjacentRepetitions
  simp only [List.tail_cons, List.zip_cons_cons, List.countP_cons]
  omega

/-- The comprehension over `range(1, len(words))` computes exactly the
adjacent-pair count. -/
lemma repetitionCount_eq_adjacentRepetitions :
    ∀ ws : List String, repetitionCount ws = adjacentRepetitions ws := by
  intro ws
  induction ws with
  | nil => rfl
  | cons a t ih =>
    cases t with
    | nil => rfl
    | cons b u =>
      rw [repetitionCount_cons₂, adjacentRepetitions_cons₂, ih]
      have hab : (a == b) = (b == a) := by
        by_cases h : a = b
        · subst h; rfl
        · have h1 : (a == b) = false := by simpa using h
          have h2 : (b == a) = false := by simpa using fun hba => h hba.symm
          rw [h1, h2]
      rw [hab]

lemma adjacentRepetitions_le (ws : List String) :
    adjacentRepetitions ws ≤ ws.length - 1 := by
  unfold adjacentRepetitions
  calc (ws.zip ws.tail).countP (fun p => p.1 == p.2)
      ≤ (ws.zip ws.tail).length := List.countP_le_length _
    _ ≤ ws.length - 1 := by
        rw [List.length_zip, List.length_tail]
        exact min_le_right _ _

lemma repetitionCount_le (ws : List String) :
    repetitionCount ws ≤ ws.length - 1 := by
  rw [repetitionCount_eq_adjacentRepetitions]
  exact adjacentRepetitions_le ws

/-! ## Lemmas: word frequency -/

lemma mem_distinctsAux (a : String) :
    ∀ (ws seen : List String),
      a ∈ distinctsAux seen ws ↔ a ∈ ws ∧ a ∉ seen := by
  intro ws
  induction ws with
  | nil => intro seen; simp [distinctsAux]
  | cons w ws ih =>
    intro seen
    unfold distinctsAux
    by_cases hw : w ∈ seen
    · simp only [if_pos hw, ih seen, List.mem_cons]
      constructor
      · rintro ⟨ha, hs⟩; exact ⟨Or.inr ha, hs⟩
      · rintro ⟨ha | ha, hs⟩
        · exact absurd (ha ▸ hw) hs
        · exact ⟨ha, hs⟩
    · simp only [if_neg hw, List.mem_cons, ih (w :: seen)]
      constructor
      · rintro (rfl | ⟨ha, hs⟩)
        · exact ⟨Or.inl rfl, hw⟩
        · exact ⟨Or.inr ha, fun h => hs (Or.inr h)⟩
      · rintro ⟨rfl | ha, hs⟩
        · exact Or.inl rfl
        · by_cases haw : a = w
          · exact Or.inl haw
          · exact Or.inr ⟨ha, fun h => h.elim haw hs⟩

lemma nodup_distinctsAux :
    ∀ (ws seen : List String), (distinctsAux seen ws).Nodup := by
  intro ws
  induction ws with
  | nil => intro seen; simp [distinctsAux]
  | cons w ws ih =>
    intro seen
    unfold distinctsAux
    by_cases hw : w ∈ seen
    · simp only [if_pos hw]; exact ih seen
    · simp only [if_neg hw]
      refine List.Nodup.cons ?_ (ih (w :: seen))
      intro hmem
      exact ((mem_distinctsAux w ws (w :: seen)).1 hmem).2 (List.mem_cons_self w seen)

lemma distincts_perm_dedup (ws : List String) :
    List.Perm (distincts ws) ws.dedup := by
  refine (List.perm_ext_iff_of_nodup (nodup_distinctsAux ws []) ws.nodup_dedup).2 ?_
  intro a
  rw [mem_distinctsAux, List.mem_dedup]
  simp

/-- The counts of the full `Counter` sum to the token count. -/
lemma sum_wordCounts (ws : List String) :
    ((wordCounts ws).map Prod.snd).sum = ws.length := by
  unfold wordCounts
  rw [List.map_map]
  have hperm : List.Perm ((distincts ws).map (fun w => ws.count w))
      (ws.dedup.map (fun w => ws.count w)) := (distincts_perm_dedup ws).map _
  calc ((distincts ws).map (Prod.snd ∘ fun w => (w, ws.count w))).sum
      = ((distincts ws).map (fun w => ws.count w)).sum := rfl
    _ = (ws.dedup.map (fun w => ws.count w)).sum := hperm.sum_eq
    _ = ws.length := List.sum_map_count_dedup_eq_length ws

lemma insertByCount_perm (x : String × Nat) :
    ∀ l : List (String × Nat), List.Perm (insertByCount x l) (x :: l) := by
  intro l
  induction l with
  | nil => exact List.Perm.refl _
  | cons y ys ih =>
    unfold insertByCount
    by_cases h : x.2 ≥ y.2
    · simp only [if_pos h]; exact List.Perm.refl _
    · simp only [if_neg h]
      exact (ih.cons y).trans (List.Perm.swap x y ys)

lemma sortByCountDesc_perm :
    ∀ l : List (String × Nat), List.Perm (sortByCountDesc l) l := by
  intro l
  induction l with
  | nil => exact List.Perm.refl _
  | cons x xs ih =>
    unfold sortByCountDesc
    exact (insertByCount_perm x (sortByCountDesc xs)).trans (ih.cons x)

/-- The truncated `most_common(n)` counts sum to at most the token count. -/
lemma mostCommon_sum_le (n : Nat) (ws : List String) :
    ((mostCommon n ws).map Prod.snd).sum ≤ ws.length := by
  unfold mostCommon
  rw [List.map_take]
  have hperm := (sortByCountDesc_perm (wordCounts ws)).map Prod.snd
  calc (((sortByCountDesc (wordCounts ws)).map Prod.snd).take n).sum
      ≤ ((sortByCountDesc (wordCounts ws)).map Prod.snd).sum := by
        conv_rhs => rw [← List.take_append_drop n ((sortByCountDesc (wordCounts ws)).map Prod.snd)]
        rw [List.sum_append]
        exact Nat.le_add_right _ _
    _ = ((wordCounts ws).map Prod.snd).sum := hperm.sum_eq
    _ = ws.length := sum_wordCounts ws

/-! ## Lemmas: transcription stage -/

/-- An attempt that contributes no usable transcript: a failure, or a
success whose text is blank. -/
def attemptProducesBlank : AttemptOutcome → Bool
  | .success txt => isBlank txt
  | _ => true

lemma loopTranscript_blank :
    ∀ (attempts : List AttemptOutcome) (t : String), isBlank t = true →
      (∀ a ∈ attempts, attemptProducesBlank a = true) →
      isBlank (loopTranscript attempts t) = true := by
  intro attempts
  induction attempts with
  | nil => intro t ht _; exact ht
  | cons a rest ih =>
    intro t ht hall
    have ha := hall a (List.mem_cons_self a rest)
    have hrest := fun b hb => hall b (List.mem_cons_of_mem a hb)
    cases a with
    | success txt =>
      have htxt : isBlank txt = true := ha
      simp only [loopTranscript, htxt, if_true]
      exact ih txt htxt hrest
    | noSpeech => exact ih t ht hrest
    | serviceErr msg => exact ih t ht hrest
    | otherErr msg => exact ih t ht hrest

/-- Every branch of the transcription stage of `analyze_audio_simple`
produces a non-blank transcript. -/
lemma transcribeStage_not_blank (attempts : List AttemptOutcome)
    (diag : StatsOutcome) : isBlank (transcribeStage attempts diag) = false := by
  unfold transcribeStage
  cases hb : isBlank (loopTranscript attempts "") with
  | true =>
    simp only [hb, if_true]
    cases diag with
    | ok s =>
      simp only [diagnosticFallback, diagnosticTranscript]
      split_ifs <;> decide
    | fileMissing => decide
    | analysisErr => decide
  | false => simp [hb]

/-! ## Claim theorems -/

/-- Claim C1: for every input (max heart-rate, mean volume, repetition
count, sentiment compound), the fusion engine returns exactly one
classification, chosen by the fixed priority order of the spec: all
four factors → Anxious 0.9, else negative sentiment → Sad 0.7, else
compound > 0.3 → Happy 0.8, else Neutral 0.6.  Stated as: the label
and confidence computed by `analyze_emotion` coincide with the
spec-worded first-match decision tree `fusionSpec` applied to the
factors. -/
theorem claim_C1_fusion_priority (transcript : String) (compound : ℚ)
    (bpms : List ℤ) (volumes : List ℚ) :
    ((analyze_emotion transcript compound bpms volumes).emotion,
      (analyze_emotion transcript compound bpms volumes).confidence)
      = fusionSpec (emotionFactors transcript compound bpms volumes).high_bpm
          (emotionFactors transcript compound bpms volumes).high_volume
          (emotionFactors transcript compound bpms volumes).repetition_alert
          (emotionFactors transcript compound bpms volumes).negative_sentiment
          compound := by
  simp only [analyze_emotion, fusionSpec]
  split_ifs <;> rfl

/-- Claim C2: the four emotion factors are strict threshold tests
(max bpm > 100, mean volume > 0.5, repetition count ≥ 2, compound
< -0.3); at compound exactly -0.3 the negative-sentiment factor is
false, and at compound exactly 0.3 the Happy branch is not taken. -/
theorem claim_C2_thresholds (transcript : String) (compound : ℚ)
    (bpms : List ℤ) (volumes : List ℚ) :
    ((emotionFactors transcript compound bpms volumes).high_bpm = true
        ↔ seriesMax bpms > 100) ∧
    ((emotionFactors transcript compound bpms volumes).high_volume = true
        ↔ seriesMean volumes > 1/2) ∧
    ((emotionFactors transcript compound bpms volumes).repetition_alert = true
        ↔ repetitionCount (tokensEmotion transcript) ≥ 2) ∧
    ((emotionFactors transcript compound bpms volumes).negative_sentiment = true
        ↔ compound < -(3/10)) ∧
    ((emotionFactors transcript (-(3/10)) bpms volumes).negative_sentiment = false) ∧
    ((analyze_emotion transcript (3/10) bpms volumes).emotion ≠ "Happy") := by
  refine ⟨by simp [emotionFactors], by simp [emotionFactors],
    by simp [emotionFactors], by simp [emotionFactors], ?_, ?_⟩
  · simp only [emotionFactors, decide_eq_false_iff_not]
    exact lt_irrefl _
  · have hns : decide ((3:ℚ)/10 < -(3/10)) = false := by norm_num
    have hh : ¬ ((3:ℚ)/10 > 3/10) := lt_irrefl _
    unfold analyze_emotion emotionFactors
    simp only [hns, Bool.and_false, if_neg hh]
    simp

/-- Claim C7: `repetition_count` equals the number of adjacent index
pairs (i-1, i) with equal tokens over the lower-cased,
punctuation-stripped token sequence (both tokenizations of the
repository), a strictly local adjacency measure; consequently it is
at most token count − 1, and 0 on the empty sequence. -/
theorem claim_C7_repetition_adjacency (t : String) :
    repetitionCount (tokensEmotion t) = adjacentRepetitions (tokensEmotion t) ∧
    repetitionCount (tokensSimple t) = adjacentRepetitions (tokensSimple t) ∧
    repetitionCount (tokensEmotion t) ≤ (tokensEmotion t).length - 1 ∧
    repetitionCount (tokensSimple t) ≤ (tokensSimple t).length - 1 ∧
    repetitionCount ([] : List String) = 0 :=
  ⟨repetitionCount_eq_adjacentRepetitions _,
   repetitionCount_eq_adjacentRepetitions _,
   repetitionCount_le _, repetitionCount_le _, rfl⟩

/-- A transcript with eleven distinct words: the returned top-10
word-frequency mapping must drop one of them. -/
def elevenWords : String := "a b c d e f g h i j k"

/-- Claim C6, counterexample: for the eleven-distinct-word transcript,
the sum of the counts of the word-frequency mapping actually returned
by `analyze_audio_simple` (truncated to `most_common(10)`) is 10,
strictly less than the 11 tokens of the transcript. -/
theorem claim_C6_counterexample :
    ((analyze_audio_simple [AttemptOutcome.success elevenWords]
        StatsOutcome.fileMissing none 150).word_frequency.map Prod.snd).sum
      ≠ (tokensSimple ((analyze_audio_simple [AttemptOutcome.success elevenWords]
        StatsOutcome.fileMissing none 150).transcript)).length := by
  decide

/-- Claim C6, amended: the sum of the counts of the full frequency
`Counter` equals the transcript token count; the returned mapping
being the top-10 truncation, the sum of its counts is at most the
token count (with equality whenever the transcript has at most ten
distinct words, but not in general). -/
theorem claim_C6_wordfreq_sum (t : String) :
    ((wordCounts (tokensSimple t)).map Prod.snd).sum = (tokensSimple t).length ∧
    ((mostCommon 10 (tokensSimple t)).map Prod.snd).sum ≤ (tokensSimple t).length :=
  ⟨sum_wordCounts _, mostCommon_sum_le _ _⟩

/-- A transcript repeating a token that contains an apostrophe. -/
def apostropheRepeat : String := dont ++ " " ++ dont

/-- Claim C10: the two duplicated lexical analyses are not equivalent:
on a transcript repeating an apostrophe-bearing token, the
`analyze_emotion` tokenizer and the `analyze_audio_simple` tokenizer
produce different token sequences and different repetition counts. -/
theorem claim_C10_tokenizations_differ :
    tokensEmotion apostropheRepeat ≠ tokensSimple apostropheRepeat ∧
    repetitionCount (tokensEmotion apostropheRepeat) = 1 ∧
    repetitionCount (tokensSimple apostropheRepeat) = 0 := by
  decide

/-- Claim C5: when every recognition attempt exhausts without
producing non-blank text, the transcription stage of
`analyze_audio_simple` selects the diagnostic placeholder from the
signal statistics by thresholds tested in order (duration < 1 s, then
peak amplitude < 0.01, then RMS energy < 0.001, else generic), and
this placeholder is the transcript of the returned record; a 0.5 s
buffer yields the too-short placeholder. -/
theorem claim_C5_diagnostic_placeholders (attempts : List AttemptOutcome)
    (s : AudioStats) (h : ∀ a ∈ attempts, attemptProducesBlank a = true) :
    transcribeStage attempts (StatsOutcome.ok s) = diagnosticTranscript s ∧
    (s.duration < 1 → diagnosticTranscript s = tooShortMsg) ∧
    (¬ s.duration < 1 → s.maxAmplitude < 1/100 →
      diagnosticTranscript s = tooQuietMsg) ∧
    (¬ s.duration < 1 → ¬ s.maxAmplitude < 1/100 → s.rmsEnergy < 1/1000 →
      diagnosticTranscript s = lowSignalMsg) ∧
    (¬ s.duration < 1 → ¬ s.maxAmplitude < 1/100 → ¬ s.rmsEnergy < 1/1000 →
      diagnosticTranscript s = notDetectedMsg) ∧
    (s.duration = 1/2 → diagnosticTranscript s = tooShortMsg) ∧
    (analyze_audio_simple attempts (StatsOutcome.ok s) none 150).transcript
      = diagnosticTranscript s := by
  have hblank : isBlank (loopTranscript attempts "") = true :=
    loopTranscript_blank attempts "" (by decide) h
  have hstage : transcribeStage attempts (StatsOutcome.ok s) = diagnosticTranscript s := by
    unfold transcribeStage
    simp [hblank, diagnosticFallback]
  refine ⟨hstage, ?_, ?_, ?_, ?_, ?_, hstage⟩
  · intro h1
    unfold diagnosticTranscript
    rw [if_pos h1]
  · intro h1 h2
    unfold diagnosticTranscript
    rw [if_neg h1, if_pos h2]
  · intro h1 h2 h3
    unfold diagnosticTranscript
    rw [if_neg h1, if_neg h2, if_pos h3]
  · intro h1 h2 h3
    unfold diagnosticTranscript
    rw [if_neg h1, if_neg h2, if_neg h3]
  · intro h1
    have hd : s.duration < 1 := by rw [h1]; norm_num
    unfold diagnosticTranscript
    rw [if_pos hd]

/-- Witness for claim C5: four failing attempts over a half-second
buffer produce the too-short placeholder as the transcript. -/
theorem claim_C5_witness :
    transcribeStage [AttemptOutcome.noSpeech, AttemptOutcome.success "",
        AttemptOutcome.serviceErr "e", AttemptOutcome.otherErr "x"]
      (StatsOutcome.ok ⟨1/2, 1, 1⟩) = diagnosticTranscript ⟨1/2, 1, 1⟩ ∧
    ((1:ℚ)/2 < 1 → diagnosticTranscript ⟨1/2, 1, 1⟩ = tooShortMsg) ∧
    ((1:ℚ)/2 = 1/2 → diagnosticTranscript ⟨1/2, 1, 1⟩ = tooShortMsg) := by
  have h := claim_C5_diagnostic_placeholders
    [AttemptOutcome.noSpeech, AttemptOutcome.success "",
     AttemptOutcome.serviceErr "e", AttemptOutcome.otherErr "x"]
    ⟨1/2, 1, 1⟩ (by decide)
  exact ⟨h.1, h.2.1, h.2.2.2.2.2.1⟩

/-- Claim C8, counterexample: tokenizing the §8 scenario transcript
with the `analyze_emotion` tokenizer yields repetition count 1 (only
the final repeated please/please pair is adjacent), not 2, so the
repetition alert is not raised. -/
theorem claim_C8_counterexample :
    repetitionCount (tokensEmotion scenarioTranscript) ≠ 2 ∧
    repetitionCount (tokensEmotion scenarioTranscript) = 1 ∧
    (emotionFactors scenarioTranscript (-(1/2)) [105] [3/5]).repetition_alert
      = false := by
  refine ⟨by decide, by decide, ?_⟩
  simp only [emotionFactors]
  decide

/-- Claim C8, amended: for the §8 scenario transcript the repetition
count is 1 and the repetition alert is false; with heart-rate max 105,
volume mean 0.6 and any compound below -0.3, the high-bpm, high-volume
and negative-sentiment factors hold but the Anxious branch cannot
fire, and the fusion engine returns Sad with confidence 0.7. -/
theorem claim_C8_scenario (compound : ℚ) (bpms : List ℤ) (volumes : List ℚ)
    (hc : compound < -(3/10)) (hmax : seriesMax bpms = 105)
    (hmean : seriesMean volumes = 3/5) :
    (analyze_emotion scenarioTranscript compound bpms volumes).emotion = "Sad" ∧
    (analyze_emotion scenarioTranscript compound bpms volumes).confidence = 7/10 ∧
    (emotionFactors scenarioTranscript compound bpms volumes).repetition_alert = false ∧
    (emotionFactors scenarioTranscript compound bpms volumes).high_bpm = true ∧
    (emotionFactors scenarioTranscript compound bpms volumes).high_volume = true ∧
    (emotionFactors scenarioTranscript compound bpms volumes).negative_sentiment = true := by
  have hrep : repetitionCount (tokensEmotion scenarioTranscript) = 1 := by decide
  have hfact : emotionFactors scenarioTranscript compound bpms volumes
      = ⟨true, true, false, true⟩ := by
    simp only [emotionFactors, hmax, hmean, hrep]
    norm_num [hc]
  refine ⟨?_, ?_, by rw [hfact], by rw [hfact], by rw [hfact], by rw [hfact]⟩ <;>
  · simp only [analyze_emotion, hfact]
    norm_num

/-- Witness for claim C8: the concrete scenario with compound -0.5,
heart-rate series [105] and volume series [0.6]. -/
theorem claim_C8_scenario_witness :
    (analyze_emotion scenarioTranscript (-(1/2)) [105] [3/5]).emotion = "Sad" ∧
    (analyze_emotion scenarioTranscript (-(1/2)) [105] [3/5]).confidence = 7/10 ∧
    (emotionFactors scenarioTranscript (-(1/2)) [105] [3/5]).repetition_alert = false ∧
    (emotionFactors scenarioTranscript (-(1/2)) [105] [3/5]).high_bpm = true ∧
    (emotionFactors scenarioTranscript (-(1/2)) [105] [3/5]).high_volume = true ∧
    (emotionFactors scenarioTranscript (-(1/2)) [105] [3/5]).negative_sentiment = true :=
  claim_C8_scenario (-(1/2)) [105] [3/5] (by norm_num)
    (by simp [seriesMax]) (by norm_num [seriesMean])

/-- Claim C9: for every non-empty decoded sample sequence, the
extracted average volume equals the mean absolute sample value scaled
by the fixed gain 10 and clamped to at most 1, and therefore always
lies in [0, 1]. -/
theorem claim_C9_volume_bounds (y : List ℚ) (h : y ≠ []) :
    avgVolumeOf y = min ((y.map (fun q => |q|)).sum / y.length * 10) 1 ∧
    0 ≤ avgVolumeOf y ∧ avgVolumeOf y ≤ 1 := by
  refine ⟨rfl, ?_, min_le_right _ _⟩
  unfold avgVolumeOf
  have hsum : 0 ≤ (y.map (fun q => |q|)).sum := by
    apply List.sum_nonneg
    intro x hx
    obtain ⟨q, _, rfl⟩ := List.mem_map.1 hx
    exact abs_nonneg q
  have hlen : (0:ℚ) < y.length := by
    have := List.length_pos.2 h
    exact_mod_cast this
  have h0 : 0 ≤ (y.map (fun q => |q|)).sum / y.length * 10 := by positivity
  exact le_min h0 (by norm_num)

/-- Witness for claim C9 at the one-sample sequence [1/2]. -/
theorem claim_C9_volume_bounds_witness :
    avgVolumeOf [1/2]
        = min (([(1:ℚ)/2].map (fun q => |q|)).sum / [(1:ℚ)/2].length * 10) 1 ∧
    0 ≤ avgVolumeOf [1/2] ∧ avgVolumeOf [1/2] ≤ 1 :=
  claim_C9_volume_bounds [1/2] (by simp)

/-- Claim C4: for every request to the `/api/audio/analyze` handler
that passes the format validation, has a non-empty body and whose
bytes librosa decodes, the handler raises the generic 500 error and
never returns a result: the load statement rebinds the name `sr` from
the speech-recognition module to the numeric sample rate, so the
recognizer construction raises an AttributeError caught only by the
outer generic handler. -/
theorem claim_C4_sr_shadowing (f : UploadFile) (y : List ℚ) (rate : ℚ)
    (recog : RecognizeOutcome) (compound pitchVal : ℚ)
    (hv : validFormat f = true) (hne : f.content ≠ []) :
    analyze_audio f (LoadResult.ok y rate) recog compound pitchVal
      = Except.error (500, attrErrorMsg) ∧
    ∀ r : AudioAnalysisResult,
      analyze_audio f (LoadResult.ok y rate) recog compound pitchVal
        ≠ Except.ok r := by
  have hlen : ¬ f.content.length = 0 := by
    simpa [List.length_eq_zero] using hne
  have hmain : analyze_audio f (LoadResult.ok y rate) recog compound pitchVal
      = Except.error (500, attrErrorMsg) := by
    unfold analyze_audio
    rw [hv]
    simp only [Bool.not_true, Bool.false_eq_true, if_false, if_neg hlen]
    rfl
  exact ⟨hmain, fun r hr => by rw [hmain] at hr; exact Except.noConfusion hr⟩

/-- Witness for claim C4: a valid one-byte `.wav` upload whose decode
succeeds. -/
theorem claim_C4_sr_shadowing_witness :
    analyze_audio ⟨"test.wav", none, [0]⟩ (LoadResult.ok [0] 22050)
        RecognizeOutcome.unknownValue 0 150
      = Except.error (500, attrErrorMsg) ∧
    ∀ r : AudioAnalysisResult,
      analyze_audio ⟨"test.wav", none, [0]⟩ (LoadResult.ok [0] 22050)
          RecognizeOutcome.unknownValue 0 150
        ≠ Except.ok r :=
  claim_C4_sr_shadowing ⟨"test.wav", none, [0]⟩ [0] 22050
    RecognizeOutcome.unknownValue 0 150 (by decide) (by decide)

/-- Claim C3 (failing input): the spec requires the transcription
stage to return a transcript record on every canonical buffer with no
error propagating outward, and `analyze_audio_simple` satisfies this
(`transcribeStage_not_blank`); but in `analyze_audio` the rebound name
`sr` makes the stage raise on this concrete decodable upload, so the
endpoint returns the generic 500 error instead of a record. -/
theorem claim_C3_analyze_audio_raises :
    analyze_audio ⟨"speech.wav", some "audio/wav", [82, 73, 70, 70]⟩
        (LoadResult.ok [1/10, 1/5, 1/10] 22050)
        (RecognizeOutcome.text "hello world") 0 150
      = Except.error (500, attrErrorMsg) := by
  rfl

end CalmPulse
